import Mathlib

/-!
Verification of the DragonEgg debug-information subsystem declared in
`include/dragonegg/Debug.h`.

The header declares class `DebugInfo` (region stack, region map, location
cursor, type/subprogram/namespace caches, function-name storage) and the thin
metadata wrapper `llvm::DIDescriptor`.  Inline bodies present in the header
(`setLocationFile`, `setLocationLine`, `DIDescriptor::isNull`,
`DIDescriptor::getUnsignedField`) are translated directly; operations that the
header only declares are modelled from the specification, as marked on each
definition.

Machine integers are modelled as `Nat`/`Int` with explicit `% 2 ^ w` where
truncation matters; pointers and backend metadata nodes are modelled as `Nat`
identities (`0` is the null pointer), and `llvm::WeakVH` validity is modelled
by the `validNodes` field of the `DebugInfo` state.
-/

namespace DragonEgg

/-- Association-list lookup keyed by a `Nat` identity (`tree_node *` keys and
metadata-node identities are both modelled as `Nat`). -/
def alookup {α : Type} (l : List (Nat × α)) (k : Nat) : Option α :=
  match l with
  | [] => none
  | (k2, v) :: rest => if k2 = k then some v else alookup rest k

/-- Remove every binding of key `k` from an association list. -/
def eraseKey {α : Type} (l : List (Nat × α)) (k : Nat) : List (Nat × α) :=
  l.filter (fun p => p.1 != k)

/-- `llvm::DIDescriptor` (Debug.h:50-80): a thin wrapper around an `MDNode`
pointer; the pointer is modelled as a `Nat` identity with `0` for null. -/
structure DIDescriptor where
  dbgNode : Nat := 0
  deriving DecidableEq

/-- Debug.h:77 `bool isNull() const \x7b return DbgNode == 0; \x7d`. -/
def DIDescriptor.isNull (d : DIDescriptor) : Bool :=
  d.dbgNode == 0

/-- Debug.h:79 `MDNode *getNode() const \x7b return DbgNode; \x7d`. -/
def DIDescriptor.getNode (d : DIDescriptor) : Nat :=
  d.dbgNode

/-- Debug.h:63 declares `uint64_t getUInt64Field(unsigned Elt) const;` with no
body in the header.  Modelled from the spec: the descriptor reads the raw
encoded field `Elt` of its node from the metadata graph `env`; the `uint64_t`
return type truncates the raw value to 64 bits. -/
def DIDescriptor.getUInt64Field (env : Nat → Nat → Nat) (d : DIDescriptor)
    (elt : Nat) : Nat :=
  env d.dbgNode elt % 2 ^ 64

/-- Debug.h:60-62: `unsigned getUnsignedField(unsigned Elt) const \x7b return
(unsigned)getUInt64Field(Elt); \x7d` — the C cast to 32-bit `unsigned` is
truncation modulo `2 ^ 32`. -/
def DIDescriptor.getUnsignedField (env : Nat → Nat → Nat) (d : DIDescriptor)
    (elt : Nat) : Nat :=
  d.getUInt64Field env elt % 2 ^ 32

/-- The `DebugInfo` class state (Debug.h:98-129).  `RegionStack` is the stack
of declarative scopes, `RegionMap` maps `tree_node *` to cached regions,
`CurFullPath`/`PrevFullPath`/`CurLineNo`/`PrevLineNo`/`PrevBB` form the
location cursor, `TypeCache`/`SPCache`/`NameSpaceCache` memoize constructed
metadata, and `FunctionNames` stores names constructed on demand.  In
addition the model carries the backend metadata graph: `validNodes` is the
set of node identities the backend still holds (a cached `llvm::WeakVH` is
valid exactly when its node is in this set), `nextId` is the next fresh node
identity, and `markers` is the stream of emitted location-change markers. -/
structure DebugInfo where
  regionStack : List Nat := []
  regionMap : List (Nat × Nat) := []
  curFullPath : String := ""
  prevFullPath : String := ""
  curLineNo : Int := 0
  prevLineNo : Int := 0
  prevBB : Option Nat := none
  typeCache : List (Nat × Nat) := []
  spCache : List (Nat × Nat) := []
  nameSpaceCache : List (Nat × Nat) := []
  functionNames : List (Nat × String) := []
  validNodes : List Nat := []
  nextId : Nat := 1
  markers : List (String × Int × Nat) := []
  deriving DecidableEq

/-- Debug.h:142 `void setLocationFile(const char *FullPath) \x7b CurFullPath =
FullPath; \x7d`. -/
def setLocationFile (s : DebugInfo) (fullPath : String) : DebugInfo :=
  { s with curFullPath := fullPath }

/-- Debug.h:143 `void setLocationLine(int LineNo) \x7b CurLineNo = LineNo; \x7d`. -/
def setLocationLine (s : DebugInfo) (lineNo : Int) : DebugInfo :=
  { s with curLineNo := lineNo }

/-- Modelled from the spec: the body of `DebugInfo::EmitStopPoint` is missing
from the sources (Debug.h:160 only declares it).  Spec 4.1: compare the
current (file, line, block) against the previous one; if unchanged, no-op;
otherwise emit one location-change marker bound to the block, then set
previous := current. -/
def EmitStopPoint (s : DebugInfo) (curBB : Nat) : DebugInfo :=
  if s.curFullPath = s.prevFullPath ∧ s.curLineNo = s.prevLineNo ∧
      s.prevBB = some curBB then
    s
  else
    { s with
      markers := (s.curFullPath, s.curLineNo, curBB) :: s.markers,
      prevFullPath := s.curFullPath,
      prevLineNo := s.curLineNo,
      prevBB := some curBB }

/-- C10: `DIDescriptor::getUnsignedField(Elt)` (Debug.h:60-62) equals
`getUInt64Field(Elt)` truncated to 32 bits, i.e. the 64-bit field value
modulo `2 ^ 32`; whenever the 64-bit value fits in 32 bits the two accessors
agree exactly. -/
theorem getUnsignedField_truncates (env : Nat → Nat → Nat) (d : DIDescriptor)
    (elt : Nat) :
    d.getUnsignedField env elt = d.getUInt64Field env elt % 2 ^ 32 ∧
      (d.getUInt64Field env elt < 2 ^ 32 →
        d.getUnsignedField env elt = d.getUInt64Field env elt) := by
  refine ⟨rfl, fun h => ?_⟩
  unfold DIDescriptor.getUnsignedField
  exact Nat.mod_eq_of_lt h

/-- Closed instance of `getUnsignedField_truncates`: on a node whose raw
field value is `7`, the 64-bit value fits in 32 bits and the accessors
agree. -/
theorem getUnsignedField_truncates_witness :
    DIDescriptor.getUInt64Field (fun _ _ => 7) ⟨1⟩ 0 < 2 ^ 32 ∧
      DIDescriptor.getUnsignedField (fun _ _ => 7) ⟨1⟩ 0 =
        DIDescriptor.getUInt64Field (fun _ _ => 7) ⟨1⟩ 0 :=
  ⟨by decide, (getUnsignedField_truncates (fun _ _ => 7) ⟨1⟩ 0).2 (by decide)⟩

/-- C5: `setLocationFile` (Debug.h:142) updates only the current-file field
and `setLocationLine` (Debug.h:143) updates only the current-line field;
neither emits a marker nor changes the previous-location fields, the caches,
the scope stack or any other `DebugInfo` state. -/
theorem setLocation_only_updates_cursor (s : DebugInfo) (p : String) (n : Int) :
    (setLocationFile s p).curFullPath = p ∧
      (setLocationFile s p).prevFullPath = s.prevFullPath ∧
      (setLocationFile s p).curLineNo = s.curLineNo ∧
      (setLocationFile s p).prevLineNo = s.prevLineNo ∧
      (setLocationFile s p).prevBB = s.prevBB ∧
      (setLocationFile s p).regionStack = s.regionStack ∧
      (setLocationFile s p).regionMap = s.regionMap ∧
      (setLocationFile s p).typeCache = s.typeCache ∧
      (setLocationFile s p).spCache = s.spCache ∧
      (setLocationFile s p).nameSpaceCache = s.nameSpaceCache ∧
      (setLocationFile s p).functionNames = s.functionNames ∧
      (setLocationFile s p).validNodes = s.validNodes ∧
      (setLocationFile s p).nextId = s.nextId ∧
      (setLocationFile s p).markers = s.markers ∧
      (setLocationLine s n).curLineNo = n ∧
      (setLocationLine s n).curFullPath = s.curFullPath ∧
      (setLocationLine s n).prevFullPath = s.prevFullPath ∧
      (setLocationLine s n).prevLineNo = s.prevLineNo ∧
      (setLocationLine s n).prevBB = s.prevBB ∧
      (setLocationLine s n).regionStack = s.regionStack ∧
      (setLocationLine s n).regionMap = s.regionMap ∧
      (setLocationLine s n).typeCache = s.typeCache ∧
      (setLocationLine s n).spCache = s.spCache ∧
      (setLocationLine s n).nameSpaceCache = s.nameSpaceCache ∧
      (setLocationLine s n).functionNames = s.functionNames ∧
      (setLocationLine s n).validNodes = s.validNodes ∧
      (setLocationLine s n).nextId = s.nextId ∧
      (setLocationLine s n).markers = s.markers := by
  repeat' constructor

/-- A cached `llvm::WeakVH` holding node `n` is valid exactly when the
backend still holds `n` (spec 3: weak references must be revalidated because
the backend may delete or replace nodes between caching and lookup). -/
def nodeValid (s : DebugInfo) (n : Nat) : Bool :=
  s.validNodes.contains n

/-- Allocate a fresh metadata node in the backend graph: the new node gets
identity `nextId` and is held (valid) by the backend. -/
def allocNode (s : DebugInfo) : Nat × DebugInfo :=
  (s.nextId,
   { s with nextId := s.nextId + 1, validNodes := s.nextId :: s.validNodes })

/-- Modelled from the spec: the cache-miss path of the `getOrCreate`
contract (spec 4.3) — construct a new node and insert it into the cache
before returning the new reference. -/
def buildEntry (d : Nat) (cache : List (Nat × Nat)) (s : DebugInfo) :
    Nat × List (Nat × Nat) × DebugInfo :=
  ((allocNode s).1, (d, (allocNode s).1) :: cache, (allocNode s).2)

/-- Modelled from the spec: the bodies of the cached builders
(`getOrCreateType`, Debug.h:173; the subprogram builder over `SPCache`;
`getOrCreateNameSpace`, Debug.h:216) are missing from the sources.  Spec 4.3
contract `getOrCreate(declaration, builderFn)`: if a valid cached entry
exists, return it; otherwise build a new node, insert it into the cache and
return the new reference.  An invalid (stale) entry is treated as a miss. -/
def getOrCreate (d : Nat) (cache : List (Nat × Nat)) (s : DebugInfo) :
    Nat × List (Nat × Nat) × DebugInfo :=
  match alookup cache d with
  | some n => if nodeValid s n then (n, cache, s) else buildEntry d cache s
  | none => buildEntry d cache s

/-- Modelled from the spec: `DebugInfo::getOrCreateType` (declared
Debug.h:173) — get the type from `TypeCache` or create a new type. -/
def getOrCreateType (s : DebugInfo) (ty : Nat) : Nat × DebugInfo :=
  ((getOrCreate ty s.typeCache s).1,
   { (getOrCreate ty s.typeCache s).2.2 with
      typeCache := (getOrCreate ty s.typeCache s).2.1 })

/-- Modelled from the spec: the subprogram builder memoized over `SPCache`
(Debug.h:120-122; the builder itself is only declared). -/
def getOrCreateSubprogram (s : DebugInfo) (fnDecl : Nat) : Nat × DebugInfo :=
  ((getOrCreate fnDecl s.spCache s).1,
   { (getOrCreate fnDecl s.spCache s).2.2 with
      spCache := (getOrCreate fnDecl s.spCache s).2.1 })

/-- Modelled from the spec: `DebugInfo::getOrCreateNameSpace` (declared
Debug.h:216) — get the namespace descriptor from `NameSpaceCache` or create
a new one. -/
def getOrCreateNameSpace (s : DebugInfo) (node : Nat) : Nat × DebugInfo :=
  ((getOrCreate node s.nameSpaceCache s).1,
   { (getOrCreate node s.nameSpaceCache s).2.2 with
      nameSpaceCache := (getOrCreate node s.nameSpaceCache s).2.1 })

/-- Modelled from the spec: the body of `DebugInfo::findRegion` is missing
from the sources (Debug.h:208 only declares it).  Spec 4.5: best-effort
lookup of the cached scope/region of a declaration in `RegionMap`; an absent
or invalid cached entry yields the null descriptor rather than an error. -/
def findRegion (s : DebugInfo) (n : Nat) : DIDescriptor :=
  match alookup s.regionMap n with
  | some node => if nodeValid s node then { dbgNode := node } else {}
  | none => {}

/-- A cache hit on a valid entry returns the cached node and changes
nothing. -/
theorem getOrCreate_hit {cache : List (Nat × Nat)} {s : DebugInfo}
    {d n : Nat} (h1 : alookup cache d = some n)
    (h2 : nodeValid s n = true) :
    getOrCreate d cache s = (n, cache, s) := by
  simp [getOrCreate, h1, h2]

/-- After any `getOrCreate` call, the returned node is cached under the key
and is valid in the returned state. -/
theorem getOrCreate_post (d : Nat) (cache : List (Nat × Nat))
    (s : DebugInfo) :
    alookup (getOrCreate d cache s).2.1 d = some (getOrCreate d cache s).1 ∧
      nodeValid (getOrCreate d cache s).2.2 (getOrCreate d cache s).1 =
        true := by
  unfold getOrCreate
  cases h : alookup cache d with
  | none => simp [buildEntry, allocNode, alookup, nodeValid]
  | some n =>
    by_cases hv : nodeValid s n = true
    · simp [h, hv]
    · have hv2 : ¬n ∈ s.validNodes := by
        simpa [nodeValid] using hv
      simp [h, hv2, buildEntry, allocNode, alookup, nodeValid]

/-- Erasing a key makes its lookup miss. -/
theorem alookup_eraseKey {α : Type} (l : List (Nat × α)) (k : Nat) :
    alookup (eraseKey l k) k = none := by
  induction l with
  | nil => rfl
  | cons p rest ih =>
    rcases p with ⟨k2, v⟩
    by_cases h : k2 = k
    · simpa [eraseKey, List.filter_cons, h] using ih
    · simpa [eraseKey, List.filter_cons, h, alookup] using ih

/-- C2: `EmitStopPoint` with the current (file, line, block) equal to the
previously emitted one is a no-op; otherwise it emits exactly one
location-change marker bound to the block and updates the previous fields to
the current ones; consequently a second consecutive call with an unchanged
position is a no-op, and two consecutive calls starting from a changed
position emit exactly one marker in total. -/
theorem emitStopPoint_suppression (s : DebugInfo) (b : Nat) :
    (s.curFullPath = s.prevFullPath ∧ s.curLineNo = s.prevLineNo ∧
        s.prevBB = some b →
      EmitStopPoint s b = s) ∧
    (¬(s.curFullPath = s.prevFullPath ∧ s.curLineNo = s.prevLineNo ∧
        s.prevBB = some b) →
      (EmitStopPoint s b).markers =
          (s.curFullPath, s.curLineNo, b) :: s.markers ∧
        (EmitStopPoint s b).prevFullPath = s.curFullPath ∧
        (EmitStopPoint s b).prevLineNo = s.curLineNo ∧
        (EmitStopPoint s b).prevBB = some b) ∧
    EmitStopPoint (EmitStopPoint s b) b = EmitStopPoint s b ∧
    (¬(s.curFullPath = s.prevFullPath ∧ s.curLineNo = s.prevLineNo ∧
        s.prevBB = some b) →
      (EmitStopPoint (EmitStopPoint s b) b).markers.length =
        s.markers.length + 1) := by
  refine ⟨fun h => ?_, fun h => ?_, ?_, fun h => ?_⟩
  · simp [EmitStopPoint, h]
  · simp [EmitStopPoint, h]
  · by_cases h : s.curFullPath = s.prevFullPath ∧ s.curLineNo = s.prevLineNo ∧
        s.prevBB = some b
    · simp [EmitStopPoint, h]
    · simp [EmitStopPoint, h]
  · simp [EmitStopPoint, h]

/-- A sample cursor state used to instantiate the location theorems: current
position `"a.c"`, line 7, in an otherwise fresh `DebugInfo`. -/
def sampleLoc : DebugInfo :=
  { curFullPath := "a.c", curLineNo := 7 }

/-- Closed instance of `emitStopPoint_suppression`: from a fresh state whose
current position `"a.c"`:7 differs from the previous one, two consecutive
`EmitStopPoint` calls on block 5 emit exactly one marker. -/
theorem emitStopPoint_suppression_witness :
    ¬(sampleLoc.curFullPath = sampleLoc.prevFullPath ∧
        sampleLoc.curLineNo = sampleLoc.prevLineNo ∧
        sampleLoc.prevBB = some 5) ∧
      (EmitStopPoint (EmitStopPoint sampleLoc 5) 5).markers.length =
        sampleLoc.markers.length + 1 :=
  ⟨by decide, (emitStopPoint_suppression sampleLoc 5).2.2.2 (by decide)⟩

/-- C1: calling the type, subprogram or namespace builder twice with the same
declaration returns the same metadata-node identity both times, and the
second call creates no duplicate node (it leaves the whole state, in
particular the fresh-node counter, unchanged). -/
theorem builder_cache_idempotent (d : Nat) (s : DebugInfo) :
    getOrCreateType (getOrCreateType s d).2 d = getOrCreateType s d ∧
      getOrCreateSubprogram (getOrCreateSubprogram s d).2 d =
        getOrCreateSubprogram s d ∧
      getOrCreateNameSpace (getOrCreateNameSpace s d).2 d =
        getOrCreateNameSpace s d := by
  refine ⟨?_, ?_, ?_⟩
  · have hpost := getOrCreate_post d s.typeCache s
    rcases hr : getOrCreate d s.typeCache s with ⟨n, c, s1⟩
    rw [hr] at hpost
    have hhit : getOrCreate d c { s1 with typeCache := c } =
        (n, c, { s1 with typeCache := c }) :=
      getOrCreate_hit hpost.1 hpost.2
    unfold getOrCreateType
    rw [hr]
    simp [hhit]
  · have hpost := getOrCreate_post d s.spCache s
    rcases hr : getOrCreate d s.spCache s with ⟨n, c, s1⟩
    rw [hr] at hpost
    have hhit : getOrCreate d c { s1 with spCache := c } =
        (n, c, { s1 with spCache := c }) :=
      getOrCreate_hit hpost.1 hpost.2
    unfold getOrCreateSubprogram
    rw [hr]
    simp [hhit]
  · have hpost := getOrCreate_post d s.nameSpaceCache s
    rcases hr : getOrCreate d s.nameSpaceCache s with ⟨n, c, s1⟩
    rw [hr] at hpost
    have hhit : getOrCreate d c { s1 with nameSpaceCache := c } =
        (n, c, { s1 with nameSpaceCache := c }) :=
      getOrCreate_hit hpost.1 hpost.2
    unfold getOrCreateNameSpace
    rw [hr]
    simp [hhit]

/-- A sample state for the stale-reference theorems: the region map caches
node 9 for declaration 2, and the backend holds no node at all, so every
cached reference is stale. -/
def sampleStale : DebugInfo :=
  { regionMap := [(2, 9)] }

/-- C8: a cache lookup whose cached weak reference is invalid is treated
exactly as a cache miss — the rebuilt node and resulting state are the same
as if the entry were absent, the entry is replaced by the rebuilt node, the
returned node is a fresh valid one (never the stale node), and no error is
raised; likewise a stale region-map entry behaves as an absent one in
`findRegion`. -/
theorem stale_entry_treated_as_miss (d n r m : Nat)
    (cache : List (Nat × Nat)) (s : DebugInfo)
    (hc : alookup cache d = some n) (hv : nodeValid s n = false)
    (hr : alookup s.regionMap r = some m) (hm : nodeValid s m = false) :
    (getOrCreate d cache s).1 = (getOrCreate d (eraseKey cache d) s).1 ∧
      (getOrCreate d cache s).2.2 =
        (getOrCreate d (eraseKey cache d) s).2.2 ∧
      alookup (getOrCreate d cache s).2.1 d =
        some (getOrCreate d cache s).1 ∧
      nodeValid (getOrCreate d cache s).2.2 (getOrCreate d cache s).1 =
        true ∧
      (getOrCreate d cache s).1 = s.nextId ∧
      findRegion s r =
        findRegion { s with regionMap := eraseKey s.regionMap r } r := by
  have hv2 : ¬n ∈ s.validNodes := by simpa [nodeValid] using hv
  have hm2 : ¬m ∈ s.validNodes := by simpa [nodeValid] using hm
  have he := alookup_eraseKey cache d
  have her := alookup_eraseKey s.regionMap r
  refine ⟨?_, ?_, ?_, ?_, ?_, ?_⟩ <;>
    simp [getOrCreate, hc, hv2, he, her, hr, hm2, buildEntry, allocNode,
      alookup, nodeValid, findRegion]

/-- Closed instance of `stale_entry_treated_as_miss`: with node 7 cached for
declaration 4 but no longer held by the backend, the lookup rebuilds a fresh
node. -/
theorem stale_entry_treated_as_miss_witness :
    alookup [(4, 7)] 4 = some 7 ∧ nodeValid sampleStale 7 = false ∧
      alookup sampleStale.regionMap 2 = some 9 ∧
      nodeValid sampleStale 9 = false ∧
      (getOrCreate 4 [(4, 7)] sampleStale).1 = sampleStale.nextId :=
  ⟨by decide, by decide, by decide, by decide,
   (stale_entry_treated_as_miss 4 7 2 9 [(4, 7)] sampleStale (by decide)
     (by decide) (by decide) (by decide)).2.2.2.2.1⟩

/-- A sample state for the region-lookup theorems: declaration 4 has cached
region node 9, which the backend still holds. -/
def sampleRegions : DebugInfo :=
  { regionMap := [(4, 9)], validNodes := [9] }

/-- C9: `findRegion` on a declaration with no cached region returns a null
descriptor (`isNull` holds) rather than raising an error, and on a
declaration with a valid cached region it returns that region's
descriptor. -/
theorem findRegion_best_effort (s : DebugInfo) (d : Nat) :
    (alookup s.regionMap d = none → (findRegion s d).isNull = true) ∧
      (∀ m, alookup s.regionMap d = some m → nodeValid s m = true →
        findRegion s d = { dbgNode := m }) := by
  constructor
  · intro h
    simp [findRegion, h, DIDescriptor.isNull]
  · intro m h hm
    simp [findRegion, h, hm]

/-- Closed instance of `findRegion_best_effort`: declaration 5 has no cached
region and yields the null descriptor; declaration 4 has valid cached region
node 9 and yields its descriptor. -/
theorem findRegion_best_effort_witness :
    alookup sampleRegions.regionMap 5 = none ∧
      (findRegion sampleRegions 5).isNull = true ∧
      alookup sampleRegions.regionMap 4 = some 9 ∧
      nodeValid sampleRegions 9 = true ∧
      findRegion sampleRegions 4 = { dbgNode := 9 } :=
  ⟨by decide, (findRegion_best_effort sampleRegions 5).1 (by decide),
   by decide, by decide,
   (findRegion_best_effort sampleRegions 4).2 9 (by decide) (by decide)⟩

/-- The const/volatile qualifiers of a front-end type (`TYPE_READONLY` /
`TYPE_VOLATILE` in the GCC tree terms the header's builders consume). -/
structure Quals where
  isConst : Bool := false
  isVolatile : Bool := false
  deriving DecidableEq

/-- Modelled from the spec: the body of `DebugInfo::createVariantType`
(declared Debug.h:194, "Create variant type or return MainTy") is missing
from the sources.  Spec 4.3: the qualified/variant builder wraps the
underlying type `mainTy` with one derived wrapper node per qualifier that
the type adds over the underlying type; if the qualifier adds no
information beyond the underlying type, it returns the underlying type
unchanged ("no redundant wrapping"). -/
def createVariantType (s : DebugInfo) (tyQuals mainQuals : Quals)
    (mainTy : Nat) : Nat × DebugInfo :=
  let newVolatile := tyQuals.isVolatile && !mainQuals.isVolatile
  let newConst := tyQuals.isConst && !mainQuals.isConst
  let r1 := if newVolatile then allocNode s else (mainTy, s)
  if newConst then allocNode r1.2 else r1

/-- C4: whenever the qualifier on the front-end type adds no information
beyond the underlying descriptor `mainTy` (e.g. a const qualifier applied to
an already-const type), `createVariantType` returns `mainTy` itself with the
state unchanged — no new wrapper node is created. -/
theorem variant_qualifier_collapse (s : DebugInfo) (tq mq : Quals)
    (mainTy : Nat) (hconst : tq.isConst = true → mq.isConst = true)
    (hvol : tq.isVolatile = true → mq.isVolatile = true) :
    createVariantType s tq mq mainTy = (mainTy, s) := by
  have h1 : (tq.isVolatile && !mq.isVolatile) = false := by
    cases hv : tq.isVolatile
    · simp
    · simp [hvol hv]
  have h2 : (tq.isConst && !mq.isConst) = false := by
    cases hc : tq.isConst
    · simp
    · simp [hconst hc]
  simp [createVariantType, h1, h2]

/-- Closed instance of `variant_qualifier_collapse`: const-of-const returns
the identical underlying descriptor and creates nothing. -/
theorem variant_qualifier_collapse_witness :
    createVariantType {} { isConst := true } { isConst := true } 3 =
      (3, ({} : DebugInfo)) :=
  variant_qualifier_collapse {} { isConst := true } { isConst := true } 3
    (by decide) (by decide)

/-- Modelled from the spec: the body of `DebugInfo::getFunctionName`
(declared Debug.h:221) is missing from the sources.  Spec 4.4: if the
declaration carries a canonical name, return it directly with no
allocation; otherwise return the name already stored in `FunctionNames` for
this declaration, or synthesize one, store it keyed by the declaration
identity, and return it.  `canonical` exposes each declaration's optional
canonical name and `synth` is the on-demand name-synthesis routine. -/
def getFunctionName (canonical : Nat → Option String)
    (synth : Nat → String) (s : DebugInfo) (fnDecl : Nat) :
    String × DebugInfo :=
  match canonical fnDecl with
  | some nm => (nm, s)
  | none =>
    match alookup s.functionNames fnDecl with
    | some nm => (nm, s)
    | none =>
      (synth fnDecl,
       { s with functionNames := (fnDecl, synth fnDecl) :: s.functionNames })

/-- C6: `getFunctionName` is stable — a declaration carrying a canonical
name gets it back directly with no allocation (the state is unchanged), and
for any declaration a second call returns exactly the first call's string
with no further synthesis or allocation (the state after the second call is
the state after the first). -/
theorem functionName_stable (canonical : Nat → Option String)
    (synth : Nat → String) (s : DebugInfo) (d : Nat) :
    (∀ nm, canonical d = some nm →
      getFunctionName canonical synth s d = (nm, s)) ∧
      getFunctionName canonical synth
          (getFunctionName canonical synth s d).2 d =
        getFunctionName canonical synth s d := by
  constructor
  · intro nm h
    simp [getFunctionName, h]
  · cases h : canonical d with
    | some nm => simp [getFunctionName, h]
    | none =>
      cases h2 : alookup s.functionNames d with
      | some nm => simp [getFunctionName, h, h2]
      | none => simp [getFunctionName, h, h2, alookup]

/-- Closed instance of `functionName_stable`: a canonical name is returned
directly, and for a synthesized destructor name the second call returns the
identical string and state. -/
theorem functionName_stable_witness :
    getFunctionName (fun _ => some ("operator+")) (fun _ => "synth") {} 3 =
        ("operator+", ({} : DebugInfo)) ∧
      getFunctionName (fun _ => none) (fun _ => "~Foo")
          (getFunctionName (fun _ => none) (fun _ => "~Foo") {} 3).2 3 =
        getFunctionName (fun _ => none) (fun _ => "~Foo") {} 3 :=
  ⟨(functionName_stable (fun _ => some ("operator+")) (fun _ => "synth")
      {} 3).1 "operator+" rfl,
   (functionName_stable (fun _ => none) (fun _ => "~Foo") {} 3).2⟩

/-- Failure signal of `leaveScope` on an empty scope stack (spec 4.2). -/
inductive ScopeErr where
  | scopeUnderflow
  deriving DecidableEq

/-- Spec 4.2 `enterScope(node)`: push the scope node onto the region stack
(`RegionStack`, Debug.h:100).  Modelled from the spec: realized by
`EmitFunctionStart`, whose body is missing from the sources. -/
def enterScope (s : DebugInfo) (n : Nat) : DebugInfo :=
  { s with regionStack := n :: s.regionStack }

/-- Spec 4.2 `leaveScope()`: pop and return the top of the region stack,
failing with `scopeUnderflow` if the stack is empty.  Modelled from the
spec: realized by `EmitFunctionEnd`, whose body is missing from the
sources. -/
def leaveScope (s : DebugInfo) : Except ScopeErr (Nat × DebugInfo) :=
  match s.regionStack with
  | [] => .error .scopeUnderflow
  | top :: rest => .ok (top, { s with regionStack := rest })

/-- Spec 4.2 `currentScope()`: the top of the region stack, or the sentinel
file scope (node 0) if the stack is empty. -/
def currentScope (s : DebugInfo) : Nat :=
  s.regionStack.headD 0

/-- `EmitFunctionStart` (Debug.h:147, declared only).  Modelled from the
spec (4.5): resolve/build the subprogram descriptor, push it onto the scope
stack, and reset the previous-location fields so that the first stop point
inside the function is always emitted. -/
def EmitFunctionStart (s : DebugInfo) (fnDecl : Nat) : DebugInfo :=
  let r := getOrCreateSubprogram s fnDecl
  { enterScope r.2 r.1 with
     prevFullPath := "", prevLineNo := 0, prevBB := none }

/-- `EmitFunctionEnd` (Debug.h:151, declared only).  Modelled from the spec
(4.5): pop the scope stack. -/
def EmitFunctionEnd (s : DebugInfo) : Except ScopeErr (Nat × DebugInfo) :=
  leaveScope s

/-- A scope operation: `enterScope` with a given node, or `leaveScope`. -/
inductive ScopeOp where
  | enter (n : Nat)
  | leave
  deriving DecidableEq

/-- Run a sequence of scope operations, failing on scope underflow. -/
def runScopeOps (s : DebugInfo) : List ScopeOp → Except ScopeErr DebugInfo
  | [] => .ok s
  | .enter n :: rest => runScopeOps (enterScope s n) rest
  | .leave :: rest =>
    match leaveScope s with
    | .error e => .error e
    | .ok (_, s1) => runScopeOps s1 rest

/-- Well-nested (balanced) sequences of scope operations. -/
inductive Balanced : List ScopeOp → Prop where
  | nil : Balanced []
  | wrap (n : Nat) {ws : List ScopeOp} (h : Balanced ws) :
      Balanced (.enter n :: ws ++ [.leave])
  | append {ws1 ws2 : List ScopeOp} (h1 : Balanced ws1)
      (h2 : Balanced ws2) : Balanced (ws1 ++ ws2)

/-- Running a concatenation runs the pieces in sequence. -/
theorem runScopeOps_append (s : DebugInfo) (a b : List ScopeOp) :
    runScopeOps s (a ++ b) =
      match runScopeOps s a with
      | .error e => .error e
      | .ok s1 => runScopeOps s1 b := by
  induction a generalizing s with
  | nil => simp [runScopeOps]
  | cons op rest ih =>
    cases op with
    | enter n => simp [runScopeOps, ih]
    | leave =>
      cases h : leaveScope s with
      | error e => simp [runScopeOps, h]
      | ok p => simp [runScopeOps, h, ih]

/-- C7: any well-nested sequence of scope entries and exits restores the
scope stack exactly (hence the depth and `currentScope` after the sequence
equal their values before), and `leaveScope` on an empty stack fails with
`scopeUnderflow` rather than popping. -/
theorem scope_balance (s : DebugInfo) (ops : List ScopeOp)
    (h : Balanced ops) :
    runScopeOps s ops = .ok s ∧
      (∀ t : DebugInfo, t.regionStack = [] →
        leaveScope t = .error .scopeUnderflow) := by
  refine ⟨?_, fun t ht => ?_⟩
  · induction h generalizing s with
    | nil => rfl
    | @wrap n ws hws ih =>
      have hstep : runScopeOps s (ScopeOp.enter n :: ws) =
          Except.ok (enterScope s n) := by
        have hdef : runScopeOps s (ScopeOp.enter n :: ws) =
            runScopeOps (enterScope s n) ws := rfl
        rw [hdef, ih]
      rw [runScopeOps_append, hstep]
      simp [runScopeOps, leaveScope, enterScope]
    | @append ws1 ws2 h1 h2 ih1 ih2 =>
      rw [runScopeOps_append, ih1 s]
      exact ih2 s
  · simp [leaveScope, ht]

/-- Closed instance of `scope_balance`: entering and leaving one scope
restores the state, and `leaveScope` on a fresh (empty-stack) state
underflows. -/
theorem scope_balance_witness :
    runScopeOps sampleRegions [ScopeOp.enter 3, ScopeOp.leave] =
        Except.ok sampleRegions ∧
      leaveScope {} = Except.error ScopeErr.scopeUnderflow :=
  ⟨(scope_balance sampleRegions [ScopeOp.enter 3, ScopeOp.leave]
      (Balanced.wrap 3 Balanced.nil)).1,
   (scope_balance sampleRegions [ScopeOp.enter 3, ScopeOp.leave]
      (Balanced.wrap 3 Balanced.nil)).2 {} rfl⟩

namespace TypeGraph

/-- Front-end type declarations consumed by the recursive type builder:
basic scalar types, pointer/reference types with a target declaration, and
struct/union/class types with a list of member type declarations
(`createBasicType`/`createPointerType`/`createStructType`, Debug.h:176-191,
all declared only in the header). -/
inductive TreeTy where
  | basic
  | pointer (target : Nat)
  | struct (members : List Nat)
  deriving DecidableEq

/-- Backend metadata nodes built for type declarations: a pointer node
records its pointee node identity and a struct node records its member node
identities. -/
inductive NodeData where
  | basicNode
  | pointerNode (pointee : Nat)
  | structNode (memberNodes : List Nat)
  deriving DecidableEq

/-- The type-builder state: the fresh-node counter, `TypeCache`
(declaration identity → node identity) and the built metadata graph. -/
structure BuildSt where
  nextId : Nat := 1
  cache : List (Nat × Nat) := []
  nodes : List (Nat × NodeData) := []
  deriving DecidableEq

mutual

/-- Modelled from the spec: the recursive structure of
`DebugInfo::getOrCreateType` and the `create*Type` builders (Debug.h:173-191,
declared only).  On a cache miss the new node's identity is inserted into
the cache *before* the builder recurses into member/target types (spec 4.3),
so a self-referential declaration finds its own placeholder.  `fuel` bounds
the recursion depth to make the model structurally total; the cycle-safety
theorem exhibits a constant fuel on which the build succeeds. -/
def getOrCreateType (table : List (Nat × TreeTy)) :
    Nat → Nat → BuildSt → Option (Nat × BuildSt)
  | 0, _, _ => none
  | fuel + 1, ty, s =>
    match alookup s.cache ty with
    | some n => some (n, s)
    | none =>
      match alookup table ty with
      | none => none
      | some decl =>
        match decl with
        | .basic =>
          some (s.nextId,
            { nextId := s.nextId + 1, cache := (ty, s.nextId) :: s.cache,
              nodes := (s.nextId, .basicNode) :: s.nodes })
        | .pointer target =>
          match getOrCreateType table fuel target
              { nextId := s.nextId + 1, cache := (ty, s.nextId) :: s.cache,
                nodes := s.nodes } with
          | none => none
          | some (tn, s2) =>
            some (s.nextId,
              { s2 with nodes := (s.nextId, .pointerNode tn) :: s2.nodes })
        | .struct members =>
          match resolveMembers table fuel members
              { nextId := s.nextId + 1, cache := (ty, s.nextId) :: s.cache,
                nodes := s.nodes } with
          | none => none
          | some (mns, s2) =>
            some (s.nextId,
              { s2 with nodes := (s.nextId, .structNode mns) :: s2.nodes })
termination_by fuel _ _ => (fuel, 0)

/-- Resolve a list of struct member type declarations in order through
`getOrCreateType`. -/
def resolveMembers (table : List (Nat × TreeTy)) :
    Nat → List Nat → BuildSt → Option (List Nat × BuildSt)
  | _, [], s => some ([], s)
  | fuel, m :: ms, s =>
    match getOrCreateType table fuel m s with
    | none => none
    | some (mn, s1) =>
      match resolveMembers table fuel ms s1 with
      | none => none
      | some (mns, s2) => some (mn :: mns, s2)
termination_by fuel ms _ => (fuel, ms.length + 1)

end

/-- C3: for every declaration table in which declaration `d` is a struct
whose member is a pointer back to `d` itself, `getOrCreateType` terminates —
constant fuel 3 suffices regardless of the table, so there is no infinite
recursion — because the struct's cache entry is inserted before the builder
recurses into its members, and the member's pointer node resolves its
pointee to the very node built for the struct (no duplicate incomplete
copy). -/
theorem selfReferential_struct_builds (table : List (Nat × TreeTy))
    (d p : Nat) (hd : alookup table d = some (.struct [p]))
    (hp : alookup table p = some (.pointer d)) :
    ∃ n pn s,
      getOrCreateType table 3 d {} = some (n, s) ∧
        alookup s.nodes n = some (.structNode [pn]) ∧
        alookup s.nodes pn = some (.pointerNode n) ∧
        alookup s.cache d = some n := by
  have hdp : d ≠ p := by
    intro h
    rw [h, hp] at hd
    simp at hd
  have hpd : p ≠ d := Ne.symm hdp
  refine ⟨1, 2,
    { nextId := 3, cache := [(p, 2), (d, 1)],
      nodes := [(1, .structNode [2]), (2, .pointerNode 1)] }, ?_, ?_, ?_, ?_⟩
  · simp [getOrCreateType, resolveMembers, alookup, hd, hp, hdp, hpd]
  · simp [alookup]
  · simp [alookup]
  · simp [alookup, hpd]

/-- A concrete two-declaration table: declaration 0 is a struct whose only
member is declaration 1, a pointer back to declaration 0. -/
def demoTable : List (Nat × TreeTy) :=
  [(0, .struct [1]), (1, .pointer 0)]

/-- Closed instance of `selfReferential_struct_builds` on `demoTable`. -/
theorem selfReferential_struct_builds_witness :
    alookup demoTable 0 = some (TreeTy.struct [1]) ∧
      alookup demoTable 1 = some (TreeTy.pointer 0) ∧
      ∃ n pn s,
        getOrCreateType demoTable 3 0 {} = some (n, s) ∧
          alookup s.nodes n = some (.structNode [pn]) ∧
          alookup s.nodes pn = some (.pointerNode n) ∧
          alookup s.cache 0 = some n :=
  ⟨by decide, by decide,
   selfReferential_struct_builds demoTable 0 1 (by decide) (by decide)⟩

end TypeGraph

end DragonEgg
